import Mathlib

/-!
Shallow embedding of the mental-health chatbot backend
(`ai_service.py`, `database_service.py`, `main.py`) and proofs of the
spec claims about it.  Machine strings are Lean `String` (lists of
characters), timestamps are `Nat` counters, the relational store is a
pair of lists, and fallible dictionary accesses return `Except`.
-/

namespace Chatbot

/-! ## String primitives (Python `in`, `lower`, `strip`, `split`, `join`, `replace`) -/

/-- Boolean list-prefix test, used to implement substring containment. -/
def prefixB : List Char → List Char → Bool
  | [], _ => true
  | _ :: _, [] => false
  | a :: as, b :: bs => a == b && prefixB as bs

/-- Boolean list-infix test: does `pat` occur contiguously in the second list? -/
def infixB (pat : List Char) : List Char → Bool
  | [] => prefixB pat []
  | l@(_ :: rest) => prefixB pat l || infixB pat rest

/-- Python `pat in hay` on strings: substring containment. -/
def containsSub (hay pat : String) : Bool :=
  infixB pat.data hay.data

/-- Python `str.lower()` (ASCII case folding, as used by the keyword lists). -/
def lowerS (s : String) : String :=
  ⟨s.data.map Char.toLower⟩

/-- Python `str.strip()`: drop whitespace from both ends. -/
def pyStrip (s : String) : String :=
  ⟨((s.data.dropWhile Char.isWhitespace).reverse.dropWhile Char.isWhitespace).reverse⟩

/-- Accumulator pass behind `pySplit`; `acc` holds the current word reversed. -/
def splitWsAux : List Char → List Char → List String
  | [], acc => if acc.isEmpty then [] else [⟨acc.reverse⟩]
  | c :: cs, acc =>
    if c.isWhitespace then
      if acc.isEmpty then splitWsAux cs [] else (⟨acc.reverse⟩ : String) :: splitWsAux cs []
    else splitWsAux cs (c :: acc)

/-- Python `str.split()` with no argument: split on whitespace runs, no empty tokens. -/
def pySplit (s : String) : List String :=
  splitWsAux s.data []

/-- Python `sep.join(parts)`. -/
def joinSep (sep : String) : List String → String
  | [] => ""
  | [x] => x
  | x :: xs => x ++ sep ++ joinSep sep xs

/-- Python `s.replace(c, rep)` for a one-character pattern `c`
(the source only calls `replace` with the single-character pattern `"\n"`). -/
def replaceChar (s : String) (c : Char) (rep : String) : String :=
  ⟨(s.data.map (fun a => if a == c then rep.data else [a])).flatten⟩

/-! ## `ai_service.py`: keyword lists and `analyze_user_message` -/

/-- `ai_service.py` line 68: the crisis phrase list. -/
def crisis_keywords : List String :=
  ["suicide", "kill myself", "end it all", "don\x27t want to live", "give up",
   "no reason to live"]

/-- `ai_service.py` line 70: the urgent keyword list. -/
def urgent_keywords : List String :=
  ["emergency", "urgent", "help now", "crisis", "panic", "overwhelmed", "can\x27t cope"]

/-- `ai_service.py` line 72: the positive keyword list of the message classifier. -/
def positive_keywords : List String :=
  ["better", "improved", "happy", "good", "progress", "achievement", "positive",
   "grateful"]

/-- `ai_service.py` line 74: the negative keyword list of the message classifier. -/
def negative_keywords : List String :=
  ["sad", "depressed", "anxious", "worried", "struggling", "difficult", "negative",
   "hopeless"]

/-- `ai_service.py` line 76: the wellness keyword list. -/
def wellness_keywords : List String :=
  ["therapy", "meditation", "exercise", "breathing", "coping", "recovery", "treatment"]

/-- Result dictionary of `analyze_user_message`. -/
structure MessageAnalysis where
  is_crisis : Bool
  is_urgent : Bool
  is_positive : Bool
  is_negative : Bool
  is_wellness : Bool
  message_length : Nat
  has_question : Bool
  urgency_level : String

/-- `ai_service.py` lines 66-87: `AIService.analyze_user_message`. -/
def analyze_user_message (message : String) : MessageAnalysis :=
  let message_lower := lowerS message
  let is_crisis := crisis_keywords.any (fun keyword => containsSub message_lower keyword)
  let is_urgent := urgent_keywords.any (fun keyword => containsSub message_lower keyword)
  let is_positive := positive_keywords.any (fun keyword => containsSub message_lower keyword)
  let is_negative := negative_keywords.any (fun keyword => containsSub message_lower keyword)
  let is_wellness := wellness_keywords.any (fun keyword => containsSub message_lower keyword)
  { is_crisis := is_crisis
    is_urgent := is_urgent
    is_positive := is_positive
    is_negative := is_negative
    is_wellness := is_wellness
    message_length := message.length
    has_question := containsSub message "?"
    urgency_level := if is_crisis then "high" else if is_urgent then "medium" else "low" }

/-! ## Data model (`models.py`) and store state -/

/-- `models.py`: a `conversations` row (one per user id). -/
structure Conversation where
  id : Nat
  user_id : String
  created_at : Nat
  updated_at : Nat

/-- `models.py`: a `messages` row. -/
structure Message where
  id : Nat
  user_id : String
  conversation_id : Nat
  role : String
  content : String
  timestamp : Nat

/-- The relational store plus the surrogate-id and clock counters that the
database supplies (`id` autoincrement, `datetime.utcnow` defaults). -/
structure DB where
  conversations : List Conversation
  messages : List Message
  nextConvId : Nat
  nextMsgId : Nat
  clock : Nat

/-- Stable descending insertion keyed by a `Nat`: the new element lands after
every element whose key is at least as large.  Models both SQL
`ORDER BY ... DESC` and the stability contract of Python `sorted(...,
reverse=True)`. -/
def insertDescBy {α : Type} (key : α → Nat) (x : α) : List α → List α
  | [] => [x]
  | y :: ys => if key y < key x then x :: y :: ys else y :: insertDescBy key x ys

/-- Stable descending sort by a `Nat` key (insertion sort, left to right). -/
def sortDescBy {α : Type} (key : α → Nat) (l : List α) : List α :=
  l.foldl (fun acc x => insertDescBy key x acc) []

/-! ## `database_service.py` -/

/-- `database_service.py` lines 10-21: `get_or_create_conversation`. -/
def get_or_create_conversation (db : DB) (user_id : String) : Conversation × DB :=
  match db.conversations.find? (fun c => c.user_id == user_id) with
  | some conversation => (conversation, db)
  | none =>
    let conversation : Conversation :=
      { id := db.nextConvId, user_id := user_id, created_at := db.clock,
        updated_at := db.clock }
    (conversation,
     { db with conversations := db.conversations ++ [conversation],
               nextConvId := db.nextConvId + 1, clock := db.clock + 1 })

/-- `database_service.py` lines 23-34: `save_message`. -/
def save_message (db : DB) (user_id : String) (conversation_id : Nat)
    (role content : String) : Message × DB :=
  let message : Message :=
    { id := db.nextMsgId, user_id := user_id, conversation_id := conversation_id,
      role := role, content := content, timestamp := db.clock }
  (message,
   { db with messages := db.messages ++ [message], nextMsgId := db.nextMsgId + 1,
             clock := db.clock + 1 })

/-- One entry of the history dictionaries built by `get_conversation_history`. -/
structure HistEntry where
  role : String
  content : String
  timestamp : Nat

/-- `database_service.py` lines 36-61: `get_conversation_history`
(query newest-first with a limit, then return in chronological order). -/
def get_conversation_history (db : DB) (user_id : String) (limit : Nat) :
    List HistEntry :=
  match db.conversations.find? (fun c => c.user_id == user_id) with
  | none => []
  | some conversation =>
    let messages :=
      (sortDescBy Message.timestamp
        (db.messages.filter (fun m => m.conversation_id == conversation.id))).take limit
    (messages.reverse).map (fun m =>
      { role := m.role, content := m.content, timestamp := m.timestamp })

/-- The query of `database_service.py` lines 76-85: the user-role messages of
one conversation, newest first, capped at 50. -/
def userMessagesQuery (db : DB) (conversation : Conversation) : List Message :=
  (sortDescBy Message.timestamp
    (db.messages.filter
      (fun m => m.conversation_id == conversation.id && m.role == "user"))).take 50

/-- `database_service.py` line 109: all-time message count for a user id,
regardless of role. -/
def totalMessagesFor (db : DB) (user_id : String) : Nat :=
  (db.messages.filter (fun m => m.user_id == user_id)).length

/-- One step of the `word_freq` dictionary build: `word_freq[word] =
word_freq.get(word, 0) + 1` (first occurrence appends, later occurrences bump
the existing entry in place, so key order is first-appearance order). -/
def bumpWord : List (String × Nat) → String → List (String × Nat)
  | [], w => [(w, 1)]
  | (k, c) :: rest, w =>
    if k == w then (k, c + 1) :: rest else (k, c) :: bumpWord rest w

/-- `database_service.py` lines 93-96: frequency map over tokens longer than
3 characters, keyed in first-appearance order. -/
def buildFreq (words : List String) : List (String × Nat) :=
  words.foldl (fun acc w => if w.length > 3 then bumpWord acc w else acc) []

/-- Lookup in the frequency list (0 when absent). -/
def valOf (l : List (String × Nat)) (w : String) : Nat :=
  match l.find? (fun p => p.1 == w) with
  | some p => p.2
  | none => 0

/-- `database_service.py` line 91-92: lowercase, concatenate with spaces and
whitespace-split the selected user messages into the shared token stream. -/
def tokenStream (user_messages : List Message) : List String :=
  pySplit (joinSep " " (user_messages.map (fun m => lowerS m.content)))

/-- `database_service.py` lines 97-98: rank tokens by descending frequency
(`sorted(..., key=lambda x: x[1], reverse=True)`, which is stable) and keep
the first five. -/
def topicsOf (words : List String) : List String :=
  ((sortDescBy Prod.snd (buildFreq words)).take 5).map Prod.fst

/-- `database_service.py` line 99: the positive word list of the sentiment vote. -/
def positive_words : List String :=
  ["good", "great", "happy", "better", "improved", "thanks", "helpful", "positive",
   "progress"]

/-- `database_service.py` line 100: the negative word list of the sentiment vote. -/
def negative_words : List String :=
  ["bad", "sad", "depressed", "anxious", "worried", "struggling", "difficult",
   "negative", "hopeless"]

/-- `database_service.py` lines 101-108: majority vote over exact token matches. -/
def sentimentOf (words : List String) : String :=
  let positive_count := words.countP (fun w => positive_words.contains w)
  let negative_count := words.countP (fun w => negative_words.contains w)
  if positive_count > negative_count then "positive"
  else if negative_count > positive_count then "negative"
  else "neutral"

/-- `database_service.py` line 120: engagement bucket from the all-time count. -/
def engagementOf (total_messages : Nat) : String :=
  if total_messages > 20 then "high"
  else if total_messages > 10 then "medium"
  else "low"

/-- The analysis dictionary returned by `get_user_sentiment_history`.  The
early returns omit the `total_messages`, `engagement_level` and
`last_message_time` keys, modelled as `none` defaults; `last_message_time`
itself holds an optional timestamp (Python `None` inside the dict). -/
structure UserAnalysis where
  message_count : Nat
  topics : List String
  sentiment : String
  total_messages : Option Nat := none
  engagement_level : Option String := none
  last_message_time : Option (Option Nat) := none

/-- `database_service.py` lines 69-121: `get_user_sentiment_history`. -/
def get_user_sentiment_history (db : DB) (user_id : String) : UserAnalysis :=
  match db.conversations.find? (fun c => c.user_id == user_id) with
  | none => { message_count := 0, topics := [], sentiment := "neutral" }
  | some conversation =>
    let user_messages := userMessagesQuery db conversation
    if user_messages.length == 0 then
      { message_count := 0, topics := [], sentiment := "neutral" }
    else
      let words := tokenStream user_messages
      let total_messages := totalMessagesFor db user_id
      { message_count := user_messages.length
        topics := topicsOf words
        sentiment := sentimentOf words
        total_messages := some total_messages
        engagement_level := some (engagementOf total_messages)
        last_message_time :=
          some (match user_messages with | [] => none | m :: _ => some m.timestamp) }

/-- The dictionary returned by `get_user_conversation_summary`. -/
structure ConversationSummary where
  total_conversations : Nat
  total_messages : Nat
  first_conversation : Option Nat
  last_conversation : Option Nat

/-- `database_service.py` lines 123-147: `get_user_conversation_summary`. -/
def get_user_conversation_summary (db : DB) (user_id : String) : ConversationSummary :=
  match db.conversations.find? (fun c => c.user_id == user_id) with
  | none =>
    { total_conversations := 0, total_messages := 0, first_conversation := none,
      last_conversation := none }
  | some conversation =>
    { total_conversations := 1
      total_messages :=
        (db.messages.filter (fun m => m.conversation_id == conversation.id)).length
      first_conversation := some conversation.created_at
      last_conversation := some conversation.updated_at }

/-! ## Prompt composer and completion gateway (`ai_service.py`) -/

/-- Python dictionary access on a possibly-absent `Nat`-valued key
(`KeyError` when absent). -/
def keyNat : Option Nat → Except String Nat
  | some n => .ok n
  | none => .error "KeyError"

/-- Python dictionary access on a possibly-absent `String`-valued key. -/
def keyStr : Option String → Except String String
  | some s => .ok s
  | none => .error "KeyError"

/-- Python dictionary access on the possibly-absent `last_message_time` key. -/
def keyOptNat : Option (Option Nat) → Except String (Option Nat)
  | some v => .ok v
  | none => .error "KeyError"

/-- `ai_service.py` lines 25-29: the fixed system persona paragraph
(three adjacent string literals concatenated). -/
def system_prompt : String :=
  "You are a warm, supportive, and helpful assistant trained to support users with mental health " ++
  "and addiction recovery. You are not a therapist, but you offer empathetic, kind, and motivating conversation. " ++
  "Always maintain a supportive and non-judgmental tone. Personalize your responses based on the user\x27s history and patterns."

/-- `ai_service.py` lines 31-38: the user-profile lines of the prompt, appended
only under `user_analysis["total_messages"] > 0`; reading an absent key raises. -/
def profile_parts (user_analysis : UserAnalysis) : Except String (List String) :=
  match keyNat user_analysis.total_messages with
  | .error e => .error e
  | .ok tm =>
    if tm > 0 then
      match keyStr user_analysis.engagement_level,
            keyOptNat user_analysis.last_message_time with
      | .ok el, .ok lmt =>
        let base := ["- Total messages: " ++ toString tm,
                     "- Engagement level: " ++ el,
                     "- Overall sentiment trend: " ++ user_analysis.sentiment]
        let base := if user_analysis.topics.isEmpty then base
          else base ++ ["- Common topics discussed: " ++ joinSep ", " user_analysis.topics]
        let base := if lmt.isSome then base ++ ["- Last message was sent recently"]
          else base
        .ok base
      | .error e, _ => .error e
      | _, .error e => .error e
    else .ok []

/-- `ai_service.py` lines 22-50: the `context_parts` list built by
`build_contextual_prompt`, before the final join. -/
def build_context_parts (db : DB) (user_id user_message : String)
    (conversation_history : List HistEntry) (user_analysis : UserAnalysis) :
    Except String (List String) :=
  match profile_parts user_analysis with
  | .error e => .error e
  | .ok prof =>
    let head := [system_prompt, "\nUser Profile (ID: " ++ user_id ++ "):"]
    let user_summary := get_user_conversation_summary db user_id
    let sum_parts :=
      if user_summary.total_conversations > 0 then
        ["- User has " ++ toString user_summary.total_conversations ++ " total conversations"]
      else []
    let hist_parts :=
      if conversation_history.isEmpty then []
      else
        "\nRecent Conversation History:" ::
          ((conversation_history.drop (conversation_history.length - 6)).map
            (fun m => (if m.role == "user" then "User" else "Assistant") ++ ": " ++ m.content))
    .ok (head ++ prof ++ sum_parts ++ hist_parts ++
      ["\nCurrent User Message: " ++ user_message, "\nAssistant:"])

/-- `ai_service.py` line 50: `"\n".join(context_parts)`. -/
def build_contextual_prompt (db : DB) (user_id user_message : String)
    (conversation_history : List HistEntry) (user_analysis : UserAnalysis) :
    Except String String :=
  match build_context_parts db user_id user_message conversation_history user_analysis with
  | .error e => .error e
  | .ok parts => .ok (joinSep "\n" parts)

/-- `ai_service.py` line 58: the fixed generic supportive fallback line used
when the trimmed completion text is empty or shorter than 10 characters. -/
def generic_fallback : String :=
  "I understand what you\x27re saying. Could you tell me more about how you\x27re feeling?"

/-- `ai_service.py` lines 61-64: the fixed supportive apology fallback string
returned when anything inside the `try` block raises. -/
def apology_fallback : String :=
  "I\x27m here to listen and support you. I\x27m experiencing some technical difficulties right now, " ++
  "but I want you to know that your feelings are valid and important. " ++
  "Would you like to try sharing again?"

/-- `ai_service.py` lines 52-64: `generate_response`.  The completion service
(`self.model.generate_content` plus the `.text` accessor) is abstracted as
`gateway`; `.error` is any raised exception. -/
def generate_response (db : DB) (user_id user_message : String)
    (conversation_history : List HistEntry) (user_analysis : UserAnalysis)
    (gateway : String → Except String String) : String :=
  match build_contextual_prompt db user_id user_message conversation_history user_analysis with
  | .error _ => apology_fallback
  | .ok full_prompt =>
    match gateway full_prompt with
    | .error _ => apology_fallback
    | .ok text =>
      let ai_response := pyStrip text
      if ai_response == "" || ai_response.length < 10 then generic_fallback
      else ai_response

/-! ## `main.py`: the `/chat` endpoint -/

/-- `main.py` lines 106-113: the `context_analysis` dictionary. -/
structure ContextAnalysis where
  user_id : String
  total_messages : Nat
  sentiment_trend : String
  engagement_level : String
  common_topics : List String
  current_message_analysis : MessageAnalysis

/-- `main.py` lines 42-48: the response payload of `POST /chat`. -/
structure MessageResponse where
  response : String
  response_html : String
  user_id : String
  message_id : Nat
  context_analysis : Option ContextAnalysis

/-- `main.py` lines 116-119: the fixed crisis-hotline notice appended to the
in-memory reply when the inbound message is classified as a crisis. -/
def crisis_notice : String :=
  "\n\n⚠️ If you\x27re having thoughts of self-harm, please contact the National Suicide Prevention Lifeline at 988 or 1-800-273-8255. You\x27re not alone, and help is available 24/7."

/-- `main.py` lines 60-136: `chat_endpoint`.  The outer `try/except` surfaces
any uncaught exception (here: a `KeyError` on the analysis dictionary) as an
internal error; everything else is the straight-line pipeline of the source. -/
def chat_endpoint (db : DB) (message user_id : String)
    (gateway : String → Except String String) :
    Except String (MessageResponse × DB) :=
  let p := get_or_create_conversation db user_id
  let q := save_message p.2 user_id p.1.id "user" message
  let conversation_history := get_conversation_history q.2 user_id 10
  let user_analysis := get_user_sentiment_history q.2 user_id
  let current_message_analysis := analyze_user_message message
  let ai_response :=
    generate_response q.2 user_id message conversation_history user_analysis gateway
  let r := save_message q.2 user_id p.1.id "assistant" ai_response
  match user_analysis.total_messages, user_analysis.engagement_level with
  | some tm, some el =>
    let context_analysis : ContextAnalysis :=
      { user_id := user_id, total_messages := tm,
        sentiment_trend := user_analysis.sentiment, engagement_level := el,
        common_topics := user_analysis.topics,
        current_message_analysis := current_message_analysis }
    let ai_response2 :=
      if current_message_analysis.is_crisis then ai_response ++ crisis_notice
      else ai_response
    .ok ({ response := ai_response2,
           response_html := replaceChar ai_response2 '\n' "<br>",
           user_id := user_id, message_id := r.1.id,
           context_analysis := some context_analysis }, r.2)
  | _, _ => .error "KeyError"

/-- The store state after the first two endpoint steps
(resolve-or-create conversation, persist the inbound user message). -/
def chatDB2 (db : DB) (user_id message : String) : DB :=
  (save_message (get_or_create_conversation db user_id).2 user_id
    (get_or_create_conversation db user_id).1.id "user" message).2

/-- The value `chat_endpoint` returns when no key access fails (proved below
to be its result on every input). -/
def chatRun (db : DB) (message user_id : String)
    (gateway : String → Except String String) : MessageResponse × DB :=
  let p := get_or_create_conversation db user_id
  let q := save_message p.2 user_id p.1.id "user" message
  let conversation_history := get_conversation_history q.2 user_id 10
  let user_analysis := get_user_sentiment_history q.2 user_id
  let current_message_analysis := analyze_user_message message
  let ai_response :=
    generate_response q.2 user_id message conversation_history user_analysis gateway
  let r := save_message q.2 user_id p.1.id "assistant" ai_response
  let context_analysis : ContextAnalysis :=
    { user_id := user_id, total_messages := user_analysis.total_messages.getD 0,
      sentiment_trend := user_analysis.sentiment,
      engagement_level := user_analysis.engagement_level.getD "",
      common_topics := user_analysis.topics,
      current_message_analysis := current_message_analysis }
  let ai_response2 :=
    if current_message_analysis.is_crisis then ai_response ++ crisis_notice
    else ai_response
  ({ response := ai_response2,
     response_html := replaceChar ai_response2 '\n' "<br>",
     user_id := user_id, message_id := r.1.id,
     context_analysis := some context_analysis }, r.2)

/-- The full-branch value of `get_user_sentiment_history` (the record of
`database_service.py` lines 113-121), named so theorems can refer to it. -/
def fullAnalysis (db : DB) (user_id : String) (conversation : Conversation) :
    UserAnalysis :=
  let user_messages := userMessagesQuery db conversation
  let words := tokenStream user_messages
  let total_messages := totalMessagesFor db user_id
  { message_count := user_messages.length
    topics := topicsOf words
    sentiment := sentimentOf words
    total_messages := some total_messages
    engagement_level := some (engagementOf total_messages)
    last_message_time :=
      some (match user_messages with | [] => none | m :: _ => some m.timestamp) }

/-- Claim-side model of the `response_html` field as claim C9 words it:
HTML-special characters escaped and newlines converted to `<br>`. -/
def specHtmlEscapeBr (s : String) : String :=
  ⟨(s.data.map (fun a =>
      if a == '&' then "&amp;".data
      else if a == '<' then "&lt;".data
      else if a == '>' then "&gt;".data
      else if a == '\n' then "<br>".data
      else [a])).flatten⟩

/-! ## Concrete inputs used by witnesses and counterexamples -/

/-- A fresh store with no rows. -/
def emptyDB : DB := ⟨[], [], 1, 1, 0⟩

/-- Example conversation row for user `alice`. -/
def convA : Conversation := ⟨1, "alice", 0, 0⟩

/-- Example store: `alice` has one user turn and one assistant turn. -/
def dbA : DB :=
  ⟨[convA],
   [⟨1, "alice", 1, "user", "Coffee coffee makes things better and good", 0⟩,
    ⟨2, "alice", 1, "assistant", "Nice progress there friend", 1⟩],
   2, 3, 2⟩

/-- Example conversation row for user `carol`. -/
def convC : Conversation := ⟨1, "carol", 0, 0⟩

/-- Example store: `carol` has 11 stored messages in total (one user turn,
ten assistant turns), the boundary for the `medium` engagement bucket. -/
def dbC : DB :=
  ⟨[convC],
   ⟨1, "carol", 1, "user", "hello there friend", 0⟩ ::
     List.replicate 10 ⟨2, "carol", 1, "assistant", "ok", 1⟩,
   2, 12, 2⟩

/-- Gateway that always raises. -/
def gw_err : String → Except String String := fun _ => .error "boom"

/-- Gateway returning a fixed long reply, for the crisis scenario. -/
def gw_c2 : String → Except String String :=
  fun _ => .ok "Please reach out to someone you trust tonight."

/-- Gateway whose reply contains HTML-special characters and a newline. -/
def gw_c9 : String → Except String String :=
  fun _ => .ok "Glad it helped! Use 2 < 3 cups & stir.\nEnjoy!"

/-- Gateway returning a plain long reply with a newline. -/
def gw_w9 : String → Except String String :=
  fun _ => .ok "Happy to help you today.\nTake care."

/-- An analysis value whose optional keys are all present (one prior message). -/
def ua_w5 : UserAnalysis :=
  { message_count := 1, topics := [], sentiment := "neutral",
    total_messages := some 1, engagement_level := some "low",
    last_message_time := some none }

/-- The prompt the composer produces for `ua_w5` on the empty store. -/
def prompt_w5 : String :=
  (build_contextual_prompt emptyDB "u" "hi" [] ua_w5).toOption.getD ""

/-- An analysis value with `message_count = 0` but a positive
`total_messages` entry: the input refuting claim C8 as stated. -/
def ua_c8 : UserAnalysis :=
  { message_count := 0, topics := [], sentiment := "neutral",
    total_messages := some 5, engagement_level := some "low",
    last_message_time := some none }

/-! ## Helper lemmas: stable descending insertion sort -/

theorem insertDescBy_length {α : Type} (key : α → Nat) (x : α) (l : List α) :
    (insertDescBy key x l).length = l.length + 1 := by
  induction l with
  | nil => rfl
  | cons y ys ih =>
    simp only [insertDescBy]
    split
    · simp
    · simp [ih]

theorem foldl_insertDescBy_length {α : Type} (key : α → Nat) (l acc : List α) :
    (l.foldl (fun a x => insertDescBy key x a) acc).length = acc.length + l.length := by
  induction l generalizing acc with
  | nil => simp
  | cons x xs ih =>
    simp only [List.foldl_cons]
    rw [ih, insertDescBy_length]
    simp only [List.length_cons]
    omega

theorem sortDescBy_length {α : Type} (key : α → Nat) (l : List α) :
    (sortDescBy key l).length = l.length := by
  simpa [sortDescBy] using foldl_insertDescBy_length key l []

theorem mem_insertDescBy {α : Type} {key : α → Nat} {x z : α} {l : List α}
    (h : z ∈ insertDescBy key x l) : z = x ∨ z ∈ l := by
  induction l with
  | nil => simpa [insertDescBy] using h
  | cons y ys ih =>
    simp only [insertDescBy] at h
    split at h
    · simp only [List.mem_cons] at h ⊢
      tauto
    · simp only [List.mem_cons] at h ⊢
      rcases h with h | h
      · tauto
      · rcases ih h with h | h <;> tauto

theorem insertDescBy_pairwise {α : Type} (key : α → Nat) (x : α) {l : List α}
    (h : l.Pairwise (fun a b => key b ≤ key a)) :
    (insertDescBy key x l).Pairwise (fun a b => key b ≤ key a) := by
  induction l with
  | nil => simp [insertDescBy]
  | cons y ys ih =>
    rw [List.pairwise_cons] at h
    obtain ⟨hy, hys⟩ := h
    simp only [insertDescBy]
    split
    case isTrue hlt =>
      refine List.pairwise_cons.mpr ⟨?_, List.pairwise_cons.mpr ⟨hy, hys⟩⟩
      intro z hz
      rcases List.mem_cons.mp hz with rfl | hz
      · exact Nat.le_of_lt hlt
      · exact Nat.le_trans (hy z hz) (Nat.le_of_lt hlt)
    case isFalse hge =>
      refine List.pairwise_cons.mpr ⟨?_, ih hys⟩
      intro z hz
      rcases mem_insertDescBy hz with rfl | hz
      · exact Nat.le_of_not_lt hge
      · exact hy z hz

theorem foldl_insertDescBy_pairwise {α : Type} (key : α → Nat) (l : List α) :
    ∀ acc : List α, acc.Pairwise (fun a b => key b ≤ key a) →
      (l.foldl (fun a x => insertDescBy key x a) acc).Pairwise
        (fun a b => key b ≤ key a) := by
  induction l with
  | nil => intro acc h; simpa using h
  | cons x xs ih =>
    intro acc h
    simp only [List.foldl_cons]
    exact ih _ (insertDescBy_pairwise key x h)

theorem sortDescBy_pairwise {α : Type} (key : α → Nat) (l : List α) :
    (sortDescBy key l).Pairwise (fun a b => key b ≤ key a) :=
  foldl_insertDescBy_pairwise key l [] (by simp)

theorem insertDescBy_filter {α : Type} (key : α → Nat) (x : α) (c : Nat) {l : List α}
    (h : l.Pairwise (fun a b => key b ≤ key a)) :
    (insertDescBy key x l).filter (fun a => key a == c) =
      if key x == c then (l.filter (fun a => key a == c)) ++ [x]
      else l.filter (fun a => key a == c) := by
  induction l with
  | nil =>
    by_cases hxc : (key x == c) = true <;>
      simp [insertDescBy, List.filter_cons, hxc]
  | cons y ys ih =>
    rw [List.pairwise_cons] at h
    obtain ⟨hy, hys⟩ := h
    simp only [insertDescBy]
    split
    case isTrue hlt =>
      by_cases hxc : (key x == c) = true
      · have hc : key x = c := eq_of_beq hxc
        have hemp : (y :: ys).filter (fun a => key a == c) = [] := by
          rw [List.filter_eq_nil_iff]
          intro z hz
          have hzlt : key z < c := by
            rcases List.mem_cons.mp hz with rfl | hz
            · omega
            · have := hy z hz; omega
          simp only [beq_iff_eq]
          omega
        rw [hemp]
        simp [List.filter_cons, hxc, hemp]
      · simp [List.filter_cons, hxc]
    case isFalse hge =>
      rw [List.filter_cons, ih hys]
      by_cases hxc : (key x == c) = true <;>
        by_cases hyc : (key y == c) = true <;>
          simp [List.filter_cons, hxc, hyc]

theorem foldl_insertDescBy_filter {α : Type} (key : α → Nat) (c : Nat) (l : List α) :
    ∀ acc : List α, acc.Pairwise (fun a b => key b ≤ key a) →
      (l.foldl (fun a x => insertDescBy key x a) acc).filter (fun a => key a == c) =
        acc.filter (fun a => key a == c) ++ l.filter (fun a => key a == c) := by
  induction l with
  | nil => intro acc h; simp
  | cons x xs ih =>
    intro acc h
    simp only [List.foldl_cons]
    rw [ih _ (insertDescBy_pairwise key x h), insertDescBy_filter key x c h]
    by_cases hxc : (key x == c) = true <;>
      simp [List.filter_cons, hxc]

theorem sortDescBy_filter {α : Type} (key : α → Nat) (c : Nat) (l : List α) :
    (sortDescBy key l).filter (fun a => key a == c) =
      l.filter (fun a => key a == c) := by
  simpa [sortDescBy] using foldl_insertDescBy_filter key c l [] (by simp)

/-! ## Helper lemmas: the frequency map -/

theorem valOf_bumpWord_self (l : List (String × Nat)) (w : String) :
    valOf (bumpWord l w) w = valOf l w + 1 := by
  induction l with
  | nil => simp [bumpWord, valOf, List.find?]
  | cons p rest ih =>
    obtain ⟨k, c⟩ := p
    by_cases hk : (k == w) = true
    · simp [bumpWord, hk, valOf, List.find?]
    · simp only [bumpWord, hk, if_neg, Bool.false_eq_true, not_false_iff, ite_false]
      simpa [valOf, List.find?, hk] using ih

theorem valOf_bumpWord_other (l : List (String × Nat)) {w w' : String}
    (hne : w' ≠ w) : valOf (bumpWord l w) w' = valOf l w' := by
  induction l with
  | nil =>
    have : (w == w') = false := beq_eq_false_iff_ne.mpr (Ne.symm hne)
    simp [bumpWord, valOf, List.find?, this]
  | cons p rest ih =>
    obtain ⟨k, c⟩ := p
    by_cases hk : (k == w) = true
    · have hkw : k = w := eq_of_beq hk
      have : (k == w') = false := beq_eq_false_iff_ne.mpr (by rw [hkw]; exact Ne.symm hne)
      simp [bumpWord, hk, valOf, List.find?, this]
    · by_cases hk' : (k == w') = true
      · simp [bumpWord, hk, valOf, List.find?, hk']
      · simp only [bumpWord, hk, Bool.false_eq_true, not_false_iff, ite_false]
        simpa [valOf, List.find?, hk'] using ih

theorem valOf_foldl_bump (w : String) (hw : 3 < w.length) (ws : List String) :
    ∀ acc : List (String × Nat),
      valOf (ws.foldl (fun acc x => if x.length > 3 then bumpWord acc x else acc) acc) w
        = valOf acc w + ws.countP (fun v => v == w) := by
  induction ws with
  | nil => intro acc; simp
  | cons v vs ih =>
    intro acc
    simp only [List.foldl_cons]
    rw [ih]
    by_cases hv : (v == w) = true
    · have hvw : v = w := eq_of_beq hv
      subst hvw
      rw [if_pos (by omega), valOf_bumpWord_self]
      rw [List.countP_cons]
      simp [hv]
      omega
    · have h2 : valOf (if v.length > 3 then bumpWord acc v else acc) w = valOf acc w := by
        split
        · exact valOf_bumpWord_other acc (fun h => by simp [h, beq_self_eq_true] at hv)
        · rfl
      rw [h2, List.countP_cons]
      simp [hv]

theorem valOf_buildFreq (ws : List String) (w : String) (hw : 3 < w.length) :
    valOf (buildFreq ws) w = ws.countP (fun v => v == w) := by
  simpa [buildFreq, valOf, List.find?] using valOf_foldl_bump w hw ws []

theorem bumpWord_keys_long {l : List (String × Nat)} {w : String}
    (hl : ∀ q ∈ l, 3 < q.1.length) (hw : 3 < w.length) :
    ∀ q ∈ bumpWord l w, 3 < q.1.length := by
  induction l with
  | nil =>
    intro q hq
    simp only [bumpWord, List.mem_singleton] at hq
    subst hq
    exact hw
  | cons p rest ih =>
    obtain ⟨k, c⟩ := p
    intro q hq
    by_cases hk : (k == w) = true
    · simp only [bumpWord, hk, if_pos, List.mem_cons] at hq
      rcases hq with rfl | hq
      · exact hl (k, c) (List.mem_cons_self _ _)
      · exact hl q (List.mem_cons.mpr (Or.inr hq))
    · simp only [bumpWord, hk, Bool.false_eq_true, not_false_iff, ite_false,
        List.mem_cons] at hq
      rcases hq with rfl | hq
      · exact hl (k, c) (List.mem_cons_self _ _)
      · exact ih (fun r hr => hl r (List.mem_cons.mpr (Or.inr hr))) q hq

theorem foldl_bump_keys_long (ws : List String) :
    ∀ acc : List (String × Nat), (∀ q ∈ acc, 3 < q.1.length) →
      ∀ q ∈ ws.foldl (fun acc x => if x.length > 3 then bumpWord acc x else acc) acc,
        3 < q.1.length := by
  induction ws with
  | nil => intro acc h; simpa using h
  | cons v vs ih =>
    intro acc h
    simp only [List.foldl_cons]
    refine ih _ ?_
    by_cases hv : v.length > 3
    · rw [if_pos hv]
      exact bumpWord_keys_long h hv
    · rw [if_neg hv]
      exact h

theorem buildFreq_keys_long (ws : List String) :
    ∀ q ∈ buildFreq ws, 3 < q.1.length :=
  foldl_bump_keys_long ws [] (by simp)

/-! ## Helper lemmas: substring containment -/

theorem prefixB_refl (l : List Char) : prefixB l l = true := by
  induction l with
  | nil => rfl
  | cons a as ih => simp [prefixB, ih]

theorem infixB_append_self (p l : List Char) : infixB p (l ++ p) = true := by
  induction l with
  | nil =>
    cases p with
    | nil => rfl
    | cons c cs => simp [infixB, prefixB_refl]
  | cons a l ih => simp [infixB, ih]

theorem containsSub_append_self (a b : String) : containsSub (a ++ b) b = true := by
  have h : (a ++ b).data = a.data ++ b.data := rfl
  simp [containsSub, h, infixB_append_self]

/-! ## Helper lemmas: the endpoint pipeline -/

theorem conv_found (db : DB) (user_id message : String) :
    (chatDB2 db user_id message).conversations.find? (fun c => c.user_id == user_id)
      = some (get_or_create_conversation db user_id).1 := by
  cases h : db.conversations.find? (fun c => c.user_id == user_id) with
  | some c =>
    simp [chatDB2, save_message, get_or_create_conversation, h]
  | none =>
    simp [chatDB2, save_message, get_or_create_conversation, h, List.find?_append,
      List.find?, beq_self_eq_true]

theorem chatDB2_query_ne (db : DB) (user_id message : String) :
    (userMessagesQuery (chatDB2 db user_id message)
        (get_or_create_conversation db user_id).1).length ≠ 0 := by
  unfold userMessagesQuery
  rw [List.length_take, sortDescBy_length]
  have hmem :
      ({ id := (get_or_create_conversation db user_id).2.nextMsgId,
         user_id := user_id,
         conversation_id := (get_or_create_conversation db user_id).1.id,
         role := "user", content := message,
         timestamp := (get_or_create_conversation db user_id).2.clock } : Message) ∈
        (chatDB2 db user_id message).messages.filter
          (fun m => m.conversation_id == (get_or_create_conversation db user_id).1.id
            && m.role == "user") := by
    apply List.mem_filter.mpr
    constructor
    · simp [chatDB2, save_message]
    · simp [beq_self_eq_true]
  have hpos := List.length_pos.mpr (List.ne_nil_of_mem hmem)
  omega

theorem sentiment_history_eq_full (db : DB) (user_id : String)
    (conversation : Conversation)
    (hconv : db.conversations.find? (fun c => c.user_id == user_id) = some conversation)
    (hne : (userMessagesQuery db conversation).length ≠ 0) :
    get_user_sentiment_history db user_id = fullAnalysis db user_id conversation := by
  unfold get_user_sentiment_history fullAnalysis
  rw [hconv]
  have hb : ((userMessagesQuery db conversation).length == 0) = false := by
    simpa using hne
  simp [hb]

theorem chat_endpoint_ok (db : DB) (message user_id : String)
    (gw : String → Except String String) :
    chat_endpoint db message user_id gw = .ok (chatRun db message user_id gw) := by
  have hfull := sentiment_history_eq_full (chatDB2 db user_id message) user_id
      (get_or_create_conversation db user_id).1 (conv_found db user_id message)
      (chatDB2_query_ne db user_id message)
  simp only [chatDB2] at hfull
  simp only [chat_endpoint, chatRun]
  rw [hfull]
  simp [fullAnalysis]

/-! ## Claim theorems -/

/-- C1: for every message string, `analyze_user_message` derives
`urgency_level` by a strict priority order: if the lowercased message contains
any of the 6 crisis phrases, the level is `high` regardless of any other
keyword matches; otherwise, if it contains any of the 7 urgent keywords, the
level is `medium`; otherwise it is `low`. -/
theorem urgency_level_priority (message : String) :
    crisis_keywords.length = 6 ∧ urgent_keywords.length = 7 ∧
    (crisis_keywords.any (fun k => containsSub (lowerS message) k) = true →
      (analyze_user_message message).urgency_level = "high") ∧
    (crisis_keywords.any (fun k => containsSub (lowerS message) k) = false →
      urgent_keywords.any (fun k => containsSub (lowerS message) k) = true →
      (analyze_user_message message).urgency_level = "medium") ∧
    (crisis_keywords.any (fun k => containsSub (lowerS message) k) = false →
      urgent_keywords.any (fun k => containsSub (lowerS message) k) = false →
      (analyze_user_message message).urgency_level = "low") := by
  refine ⟨rfl, rfl, ?_, ?_, ?_⟩
  · intro h1
    simp [analyze_user_message, h1]
  · intro h1 h2
    simp [analyze_user_message, h1, h2]
  · intro h1 h2
    simp [analyze_user_message, h1, h2]

/-- Witness for C1: a message matching both a crisis phrase and an urgent
keyword is classified `high`, never `medium`. -/
theorem urgency_level_priority_witness :
    crisis_keywords.any (fun k => containsSub (lowerS "I panic and give up") k) = true ∧
    urgent_keywords.any (fun k => containsSub (lowerS "I panic and give up") k) = true ∧
    (analyze_user_message "I panic and give up").urgency_level = "high" :=
  ⟨by decide, by decide,
   (urgency_level_priority "I panic and give up").2.2.1 (by decide)⟩

/-- C5: `generate_response` never propagates a failure: if the completion call
(or the prompt build) raises, it returns the fixed apology fallback; if the
call succeeds but the trimmed text is empty or shorter than 10 characters, it
returns the fixed generic fallback; otherwise it returns the trimmed text. -/
theorem generate_response_total_fallbacks (db : DB) (user_id user_message : String)
    (conversation_history : List HistEntry) (user_analysis : UserAnalysis)
    (gateway : String → Except String String) (prompt : String) :
    (build_contextual_prompt db user_id user_message conversation_history
        user_analysis = .ok prompt →
      ((∀ e, gateway prompt = .error e →
          generate_response db user_id user_message conversation_history
            user_analysis gateway = apology_fallback) ∧
       (∀ t, gateway prompt = .ok t → (pyStrip t = "" ∨ (pyStrip t).length < 10) →
          generate_response db user_id user_message conversation_history
            user_analysis gateway = generic_fallback) ∧
       (∀ t, gateway prompt = .ok t → 10 ≤ (pyStrip t).length →
          generate_response db user_id user_message conversation_history
            user_analysis gateway = pyStrip t))) ∧
    (∀ e, build_contextual_prompt db user_id user_message conversation_history
        user_analysis = .error e →
      generate_response db user_id user_message conversation_history
        user_analysis gateway = apology_fallback) := by
  constructor
  · intro hb
    refine ⟨?_, ?_, ?_⟩
    · intro e he
      simp [generate_response, hb, he]
    · intro t ht hshort
      have hlen : (pyStrip t).length < 10 := by
        rcases hshort with h | h
        · rw [h]; simp
        · exact h
      simp [generate_response, hb, ht, hlen]
    · intro t ht hlen
      have h1 : (pyStrip t == "") = false := by
        apply beq_eq_false_iff_ne.mpr
        intro h
        rw [h] at hlen
        simp at hlen
      have h2 : ¬(pyStrip t).length < 10 := Nat.not_lt.mpr hlen
      simp [generate_response, hb, ht, h1, h2]
  · intro e he
    simp [generate_response, he]

/-- Witness for C5: a raising gateway yields the apology fallback. -/
theorem generate_response_total_fallbacks_witness :
    build_contextual_prompt emptyDB "u" "hi" [] ua_w5 = .ok prompt_w5 ∧
    gw_err prompt_w5 = .error "boom" ∧
    generate_response emptyDB "u" "hi" [] ua_w5 gw_err = apology_fallback :=
  ⟨rfl, rfl,
   ((generate_response_total_fallbacks emptyDB "u" "hi" [] ua_w5 gw_err
      prompt_w5).1 rfl).1 "boom" rfl⟩

/-- C7: for a user id with no conversation, or a conversation with zero
user-role messages, `get_user_sentiment_history` does not fail and returns
message_count 0, empty topics and neutral sentiment. -/
theorem zero_history_neutral (db : DB) (user_id : String)
    (h : db.conversations.find? (fun c => c.user_id == user_id) = none ∨
      ∃ conversation,
        db.conversations.find? (fun c => c.user_id == user_id) = some conversation ∧
        (userMessagesQuery db conversation).length = 0) :
    (get_user_sentiment_history db user_id).message_count = 0 ∧
    (get_user_sentiment_history db user_id).topics = [] ∧
    (get_user_sentiment_history db user_id).sentiment = "neutral" := by
  rcases h with h | ⟨conversation, hc, hz⟩
  · simp [get_user_sentiment_history, h]
  · simp [get_user_sentiment_history, hc, hz]

/-- Witness for C7: an unknown user id on the empty store. -/
theorem zero_history_neutral_witness :
    emptyDB.conversations.find? (fun c => c.user_id == "nobody") = none ∧
    ((get_user_sentiment_history emptyDB "nobody").message_count = 0 ∧
     (get_user_sentiment_history emptyDB "nobody").topics = [] ∧
     (get_user_sentiment_history emptyDB "nobody").sentiment = "neutral") :=
  ⟨rfl, zero_history_neutral emptyDB "nobody" (Or.inl rfl)⟩

/-- C6: `engagement_level` is derived from the all-time `total_messages` count
with strict thresholds: `high` iff more than 20, `medium` iff more than 10 and
at most 20, `low` iff at most 10. -/
theorem engagement_thresholds (db : DB) (user_id : String)
    (conversation : Conversation)
    (hconv : db.conversations.find? (fun c => c.user_id == user_id) = some conversation)
    (hne : (userMessagesQuery db conversation).length ≠ 0) :
    ((get_user_sentiment_history db user_id).engagement_level = some "high"
        ↔ 20 < totalMessagesFor db user_id) ∧
    ((get_user_sentiment_history db user_id).engagement_level = some "medium"
        ↔ (10 < totalMessagesFor db user_id ∧ totalMessagesFor db user_id ≤ 20)) ∧
    ((get_user_sentiment_history db user_id).engagement_level = some "low"
        ↔ totalMessagesFor db user_id ≤ 10) ∧
    (get_user_sentiment_history db user_id).total_messages
        = some (totalMessagesFor db user_id) := by
  rw [sentiment_history_eq_full db user_id conversation hconv hne]
  simp only [fullAnalysis, engagementOf]
  by_cases h20 : totalMessagesFor db user_id > 20 <;>
    by_cases h10 : totalMessagesFor db user_id > 10 <;>
      simp [h20, h10] <;> omega

/-- Witness for C6: `carol` has 11 stored messages, the `medium` boundary. -/
theorem engagement_thresholds_witness :
    totalMessagesFor dbC "carol" = 11 ∧
    (get_user_sentiment_history dbC "carol").engagement_level = some "medium" :=
  ⟨by decide,
   (engagement_thresholds dbC "carol" convC rfl (by decide)).2.1.mpr (by decide)⟩

/-- C3: the `topics` field is computed by taking the most recent 50 user-role
messages (newest first), lowercasing and concatenating their text, splitting
on whitespace, building a frequency map over tokens longer than 3 characters
in first-appearance order, and keeping the 5 highest-frequency tokens under a
stable descending sort (ties keep first-appearance order); the result depends
only on the queried message list, so recomputation is deterministic. -/
theorem topics_ranking_spec (db : DB) (user_id : String)
    (conversation : Conversation)
    (hconv : db.conversations.find? (fun c => c.user_id == user_id) = some conversation)
    (hne : (userMessagesQuery db conversation).length ≠ 0) :
    (get_user_sentiment_history db user_id).topics
      = ((sortDescBy Prod.snd
            (buildFreq (tokenStream (userMessagesQuery db conversation)))).take 5).map
          Prod.fst ∧
    (sortDescBy Prod.snd
        (buildFreq (tokenStream (userMessagesQuery db conversation)))).Pairwise
      (fun a b => b.2 ≤ a.2) ∧
    (∀ c : Nat,
      (sortDescBy Prod.snd
          (buildFreq (tokenStream (userMessagesQuery db conversation)))).filter
        (fun p => p.2 == c)
        = (buildFreq (tokenStream (userMessagesQuery db conversation))).filter
            (fun p => p.2 == c)) ∧
    (∀ w : String, 3 < w.length →
      valOf (buildFreq (tokenStream (userMessagesQuery db conversation))) w
        = (tokenStream (userMessagesQuery db conversation)).countP (fun v => v == w)) ∧
    (∀ p ∈ buildFreq (tokenStream (userMessagesQuery db conversation)),
      3 < p.1.length) ∧
    (∀ (db2 : DB) (uid2 : String) (conv2 : Conversation),
      db2.conversations.find? (fun c => c.user_id == uid2) = some conv2 →
      userMessagesQuery db2 conv2 = userMessagesQuery db conversation →
      (get_user_sentiment_history db2 uid2).topics
        = (get_user_sentiment_history db user_id).topics) := by
  have hfull := sentiment_history_eq_full db user_id conversation hconv hne
  refine ⟨?_, ?_, ?_, ?_, ?_, ?_⟩
  · rw [hfull]
    rfl
  · exact sortDescBy_pairwise _ _
  · intro c
    exact sortDescBy_filter _ c _
  · intro w hw
    exact valOf_buildFreq _ w hw
  · exact buildFreq_keys_long _
  · intro db2 uid2 conv2 hconv2 hq
    have hne2 : (userMessagesQuery db2 conv2).length ≠ 0 := by
      rw [hq]; exact hne
    rw [hfull, sentiment_history_eq_full db2 uid2 conv2 hconv2 hne2]
    simp only [fullAnalysis]
    rw [hq]

/-- Witness for C3 at a concrete store. -/
theorem topics_ranking_spec_witness :
    dbA.conversations.find? (fun c => c.user_id == "alice") = some convA ∧
    (get_user_sentiment_history dbA "alice").topics
      = ((sortDescBy Prod.snd
            (buildFreq (tokenStream (userMessagesQuery dbA convA)))).take 5).map
          Prod.fst :=
  ⟨rfl, (topics_ranking_spec dbA "alice" convA rfl (by decide)).1⟩

/-- C4: `sentiment` is the majority vote of exact whitespace-delimited token
matches against the fixed 9-word positive and negative lists, over the same
token stream used for topics: `positive` on a strict positive majority,
`negative` on a strict negative majority, `neutral` on equal counts. -/
theorem sentiment_majority_vote (db : DB) (user_id : String)
    (conversation : Conversation)
    (hconv : db.conversations.find? (fun c => c.user_id == user_id) = some conversation)
    (hne : (userMessagesQuery db conversation).length ≠ 0) :
    positive_words.length = 9 ∧ negative_words.length = 9 ∧
    ((tokenStream (userMessagesQuery db conversation)).countP
        (fun w => negative_words.contains w)
      < (tokenStream (userMessagesQuery db conversation)).countP
          (fun w => positive_words.contains w) →
      (get_user_sentiment_history db user_id).sentiment = "positive") ∧
    ((tokenStream (userMessagesQuery db conversation)).countP
        (fun w => positive_words.contains w)
      < (tokenStream (userMessagesQuery db conversation)).countP
          (fun w => negative_words.contains w) →
      (get_user_sentiment_history db user_id).sentiment = "negative") ∧
    ((tokenStream (userMessagesQuery db conversation)).countP
        (fun w => positive_words.contains w)
      = (tokenStream (userMessagesQuery db conversation)).countP
          (fun w => negative_words.contains w) →
      (get_user_sentiment_history db user_id).sentiment = "neutral") ∧
    (get_user_sentiment_history db user_id).topics
      = topicsOf (tokenStream (userMessagesQuery db conversation)) := by
  have hfull := sentiment_history_eq_full db user_id conversation hconv hne
  refine ⟨rfl, rfl, ?_, ?_, ?_, ?_⟩
  · intro h
    rw [hfull]
    simp only [fullAnalysis, sentimentOf]
    rw [if_pos h]
  · intro h
    rw [hfull]
    simp only [fullAnalysis, sentimentOf]
    rw [if_neg (Nat.lt_asymm h), if_pos h]
  · intro h
    rw [hfull]
    simp only [fullAnalysis, sentimentOf]
    rw [if_neg (by omega), if_neg (by omega)]
  · rw [hfull]
    rfl

/-- Witness for C4: a message with two positive-list tokens and none from the
negative list yields `positive`. -/
theorem sentiment_majority_vote_witness :
    (tokenStream (userMessagesQuery dbA convA)).countP
        (fun w => positive_words.contains w) = 2 ∧
    (tokenStream (userMessagesQuery dbA convA)).countP
        (fun w => negative_words.contains w) = 0 ∧
    (get_user_sentiment_history dbA "alice").sentiment = "positive" :=
  ⟨by decide, by decide,
   (sentiment_majority_vote dbA "alice" convA rfl (by decide)).2.2.1 (by decide)⟩

/-- C10: in every `/chat` request the inbound user message is persisted before
`get_user_sentiment_history` runs, so the analysis computed by the endpoint
has `message_count` at least 1, the zero-message early return is unreachable,
the `total_messages`, `engagement_level` and `last_message_time` keys are
always present, and the endpoint never fails on the unconditional key
accesses. -/
theorem inbound_persisted_before_analysis (db : DB) (message user_id : String)
    (gw : String → Except String String) :
    1 ≤ (get_user_sentiment_history (chatDB2 db user_id message) user_id).message_count ∧
    (get_user_sentiment_history (chatDB2 db user_id message)
        user_id).total_messages.isSome = true ∧
    (get_user_sentiment_history (chatDB2 db user_id message)
        user_id).engagement_level.isSome = true ∧
    (get_user_sentiment_history (chatDB2 db user_id message)
        user_id).last_message_time.isSome = true ∧
    chat_endpoint db message user_id gw = .ok (chatRun db message user_id gw) := by
  have hne := chatDB2_query_ne db user_id message
  have hfull := sentiment_history_eq_full (chatDB2 db user_id message) user_id
      (get_or_create_conversation db user_id).1 (conv_found db user_id message) hne
  refine ⟨?_, ?_, ?_, ?_, chat_endpoint_ok db message user_id gw⟩
  · rw [hfull]
    simp only [fullAnalysis]
    omega
  · rw [hfull]
    rfl
  · rw [hfull]
    rfl
  · rw [hfull]
    rfl

/-- C2: when the inbound message is classified as a crisis, the endpoint
succeeds, the crisis-hotline notice is appended only to the in-memory response
(which therefore contains it), and the persisted assistant row holds the
gateway-derived reply without the notice. -/
theorem crisis_notice_transient (db : DB) (message user_id : String)
    (gw : String → Except String String)
    (hcrisis : (analyze_user_message message).is_crisis = true) :
    ∃ (resp : MessageResponse) (db2 : DB) (r : String) (am : Message),
      chat_endpoint db message user_id gw = .ok (resp, db2) ∧
      resp.response = r ++ crisis_notice ∧
      containsSub resp.response crisis_notice = true ∧
      db2.messages.getLast? = some am ∧
      am.role = "assistant" ∧ am.content = r := by
  have hresp : (chatRun db message user_id gw).1.response =
      generate_response (chatDB2 db user_id message) user_id message
        (get_conversation_history (chatDB2 db user_id message) user_id 10)
        (get_user_sentiment_history (chatDB2 db user_id message) user_id) gw
      ++ crisis_notice := by
    simp only [chatRun, chatDB2, hcrisis, if_pos]
  have hlast : (chatRun db message user_id gw).2.messages.getLast? =
      some { id := (chatDB2 db user_id message).nextMsgId, user_id := user_id,
             conversation_id := (get_or_create_conversation db user_id).1.id,
             role := "assistant",
             content := generate_response (chatDB2 db user_id message) user_id message
               (get_conversation_history (chatDB2 db user_id message) user_id 10)
               (get_user_sentiment_history (chatDB2 db user_id message) user_id) gw,
             timestamp := (chatDB2 db user_id message).clock } := by
    simp only [chatRun, chatDB2, save_message]
    exact List.getLast?_concat _
  exact ⟨(chatRun db message user_id gw).1, (chatRun db message user_id gw).2,
    generate_response (chatDB2 db user_id message) user_id message
      (get_conversation_history (chatDB2 db user_id message) user_id 10)
      (get_user_sentiment_history (chatDB2 db user_id message) user_id) gw,
    _, chat_endpoint_ok db message user_id gw, hresp,
    by rw [hresp]; exact containsSub_append_self _ crisis_notice,
    hlast, rfl, rfl⟩

/-- Witness for C2: the crisis message of the spec scenario on a fresh store. -/
theorem crisis_notice_transient_witness :
    (analyze_user_message "I want to end it all").is_crisis = true ∧
    (∃ (resp : MessageResponse) (db2 : DB) (r : String) (am : Message),
      chat_endpoint emptyDB "I want to end it all" "u" gw_c2 = .ok (resp, db2) ∧
      resp.response = r ++ crisis_notice ∧
      containsSub resp.response crisis_notice = true ∧
      db2.messages.getLast? = some am ∧
      am.role = "assistant" ∧ am.content = r) :=
  ⟨by decide,
   crisis_notice_transient emptyDB "I want to end it all" "u" gw_c2 (by decide)⟩

/-- C8 counterexample: an analysis dictionary with `message_count = 0` but a
`total_messages` entry of 5 makes the composed prompt contain the
user-profile section, so the section is not included if and only if
`message_count > 0`: the code guards on `total_messages` instead. -/
theorem profile_section_counterexample :
    ua_c8.message_count = 0 ∧
    profile_parts ua_c8 =
      .ok ["- Total messages: 5", "- Engagement level: low",
           "- Overall sentiment trend: neutral"] ∧
    build_context_parts emptyDB "u" "hello" [] ua_c8 =
      .ok [system_prompt, "\nUser Profile (ID: u):", "- Total messages: 5",
           "- Engagement level: low", "- Overall sentiment trend: neutral",
           "\nCurrent User Message: hello", "\nAssistant:"] :=
  ⟨rfl, rfl, rfl⟩

/-- C8 (amended): the composed prompt contains the user-profile section if and
only if the analysis's `total_messages` entry is positive (the code guards on
`total_messages`, not on `message_count`; the two coincide for the analyses
the endpoint computes after persisting the inbound message). -/
theorem profile_section_iff_total_messages (db : DB)
    (user_id user_message : String) (conversation_history : List HistEntry)
    (user_analysis : UserAnalysis) (tm : Nat) (el : String) (lmt : Option Nat)
    (h1 : user_analysis.total_messages = some tm)
    (h2 : user_analysis.engagement_level = some el)
    (h3 : user_analysis.last_message_time = some lmt) :
    ∃ prof rest,
      profile_parts user_analysis = .ok prof ∧
      (prof ≠ [] ↔ 0 < tm) ∧
      build_context_parts db user_id user_message conversation_history user_analysis
        = .ok ([system_prompt, "\nUser Profile (ID: " ++ user_id ++ "):"]
            ++ prof ++ rest) := by
  by_cases htm : 0 < tm
  · refine ⟨(if lmt.isSome then
        (if user_analysis.topics.isEmpty then
          ["- Total messages: " ++ toString tm, "- Engagement level: " ++ el,
           "- Overall sentiment trend: " ++ user_analysis.sentiment]
         else
          ["- Total messages: " ++ toString tm, "- Engagement level: " ++ el,
           "- Overall sentiment trend: " ++ user_analysis.sentiment]
            ++ ["- Common topics discussed: " ++ joinSep ", " user_analysis.topics])
          ++ ["- Last message was sent recently"]
       else
        (if user_analysis.topics.isEmpty then
          ["- Total messages: " ++ toString tm, "- Engagement level: " ++ el,
           "- Overall sentiment trend: " ++ user_analysis.sentiment]
         else
          ["- Total messages: " ++ toString tm, "- Engagement level: " ++ el,
           "- Overall sentiment trend: " ++ user_analysis.sentiment]
            ++ ["- Common topics discussed: " ++ joinSep ", " user_analysis.topics])),
      ?_, ?_, ?_, ?_⟩
    · exact (if (get_user_conversation_summary db user_id).total_conversations > 0 then
          ["- User has " ++ toString (get_user_conversation_summary db user_id).total_conversations
            ++ " total conversations"]
        else []) ++
        (if conversation_history.isEmpty then []
        else
          "\nRecent Conversation History:" ::
            ((conversation_history.drop (conversation_history.length - 6)).map
              (fun m => (if m.role == "user" then "User" else "Assistant")
                ++ ": " ++ m.content))) ++
        ["\nCurrent User Message: " ++ user_message, "\nAssistant:"]
    · simp [profile_parts, h1, h2, h3, keyNat, keyStr, keyOptNat, htm]
    · constructor
      · intro _; exact htm
      · intro _
        split <;> split <;> simp
    · simp only [build_context_parts, profile_parts, h1, h2, h3, keyNat, keyStr,
        keyOptNat, if_pos htm]
      split <;> split <;> simp [List.append_assoc]
  · refine ⟨[],
      (if (get_user_conversation_summary db user_id).total_conversations > 0 then
          ["- User has " ++ toString (get_user_conversation_summary db user_id).total_conversations
            ++ " total conversations"]
        else []) ++
        (if conversation_history.isEmpty then []
        else
          "\nRecent Conversation History:" ::
            ((conversation_history.drop (conversation_history.length - 6)).map
              (fun m => (if m.role == "user" then "User" else "Assistant")
                ++ ": " ++ m.content))) ++
        ["\nCurrent User Message: " ++ user_message, "\nAssistant:"],
      ?_, ?_, ?_⟩
    · simp [profile_parts, h1, keyNat, htm]
    · simp [htm]
    · simp only [build_context_parts, profile_parts, h1, keyNat, if_neg htm]
      simp [List.append_assoc]

/-- Witness for C8 (amended): `ua_w5` has `total_messages = 1`, so its prompt
contains the profile section. -/
theorem profile_section_iff_total_messages_witness :
    ua_w5.total_messages = some 1 ∧
    (∃ prof rest,
      profile_parts ua_w5 = .ok prof ∧
      (prof ≠ [] ↔ 0 < 1) ∧
      build_context_parts emptyDB "u" "hi" [] ua_w5
        = .ok ([system_prompt, "\nUser Profile (ID: " ++ "u" ++ "):"]
            ++ prof ++ rest)) :=
  ⟨rfl, profile_section_iff_total_messages emptyDB "u" "hi" [] ua_w5 1 "low" none
    rfl rfl rfl⟩

/-- C9 counterexample: on a concrete run whose reply contains `&` and `<`, the
`response_html` field differs from the HTML-escaped line-break-converted
variant of the `response` field: the code never escapes HTML-special
characters. -/
theorem response_html_not_escaped :
    (chat_endpoint emptyDB "thanks for the recipe" "u" gw_c9).toOption.map
        (fun r => decide (r.1.response_html = specHtmlEscapeBr r.1.response))
      = some false := by
  decide

/-- C9 (amended): `response_html` is the `response` field with every newline
replaced by an HTML `br` tag; HTML-special characters are not escaped. -/
theorem response_html_br_only (db : DB) (message user_id : String)
    (gw : String → Except String String) (resp : MessageResponse) (db2 : DB)
    (h : chat_endpoint db message user_id gw = .ok (resp, db2)) :
    resp.response_html = replaceChar resp.response '\n' "<br>" := by
  rw [chat_endpoint_ok] at h
  have h2 : (resp, db2) = chatRun db message user_id gw := by
    exact (Except.ok.injEq _ _).mp h.symm
  have h3 : resp = (chatRun db message user_id gw).1 := by
    rw [← h2]
  rw [h3]
  simp only [chatRun]

/-- Witness for C9 (amended) at a concrete run with a newline in the reply. -/
theorem response_html_br_only_witness :
    (chatRun emptyDB "hello my friend" "u" gw_w9).1.response_html
      = replaceChar (chatRun emptyDB "hello my friend" "u" gw_w9).1.response
          '\n' "<br>" :=
  response_html_br_only emptyDB "hello my friend" "u" gw_w9 _ _
    (chat_endpoint_ok emptyDB "hello my friend" "u" gw_w9)

end Chatbot
